import Mathlib

/-
Verification of the loan-guidance pipeline (`app/loan_guidance.py`,
class `AdvancedLoanGuidanceSystem`) against its natural-language
specification.  The Python source is shallowly embedded below:

* Python/numpy floats are modelled by `PyNum` (an exact rational plus the
  IEEE special values NaN / +inf / -inf) where the special values matter
  (`safe_divide`), and by plain rationals `ℚ` elsewhere (the claims checked
  there do not depend on rounding or on special values).
* pandas scalars-vs-Series dynamic typing is modelled by `PdVal`.
* ambient randomness (`np.random.*`) is modelled by threading an explicit
  stream of pre-drawn values: each call of a `np.random` routine consumes
  the next value(s) of the stream.  A normal draw with a finite constant
  `scale` yields the stream value; a normal draw whose `scale` is the
  standard deviation of a single-element column is NaN regardless of the
  stream value (pandas `std()` of one element is NaN with its default
  ddof = 1, and numpy's scale validation admits NaN), which the one-row
  inference frame makes pervasive.
* mutable object state (`self.label_encoders`, `self.feature_scaler`) is
  modelled by explicit state passing; a raised Python exception is
  modelled by `Option.none`.
-/

/-- Lookup in a Python dict modelled as an insertion-ordered association
list (first match wins; Python dict keys are unique, so the first match
is the only one). -/
def dictGet {α : Type} (k : String) : List (String × α) → Option α
  | [] => none
  | (k', v) :: rest => if k = k' then some v else dictGet k rest

/-- Key membership in a dict (Python `key in d`). -/
def dictHas {α : Type} (k : String) (d : List (String × α)) : Bool :=
  (dictGet k d).isSome

/-! ### Python float values (for `safe_divide`, source lines 19-31) -/

/-- A Python/numpy float: a finite value (modelled exactly as a rational),
NaN, or a signed infinity. -/
inductive PyNum where
  | fin : ℚ → PyNum
  | nan : PyNum
  | pinf : PyNum
  | ninf : PyNum
deriving DecidableEq

/-- IEEE-754 division on `PyNum` as numpy performs it elementwise:
NaN propagates; finite/0 gives NaN (0/0) or a signed infinity; x/±inf is 0
(signed zeros are collapsed to `fin 0`); inf/inf is NaN. -/
def fdiv : PyNum → PyNum → PyNum
  | PyNum.nan, _ => PyNum.nan
  | _, PyNum.nan => PyNum.nan
  | PyNum.fin a, PyNum.fin b =>
      if b = 0 then
        (if a = 0 then PyNum.nan else if 0 < a then PyNum.pinf else PyNum.ninf)
      else PyNum.fin (a / b)
  | PyNum.pinf, PyNum.fin b => if b < 0 then PyNum.ninf else PyNum.pinf
  | PyNum.ninf, PyNum.fin b => if b < 0 then PyNum.pinf else PyNum.ninf
  | PyNum.fin _, PyNum.pinf => PyNum.fin 0
  | PyNum.fin _, PyNum.ninf => PyNum.fin 0
  | PyNum.pinf, PyNum.pinf => PyNum.nan
  | PyNum.pinf, PyNum.ninf => PyNum.nan
  | PyNum.ninf, PyNum.pinf => PyNum.nan
  | PyNum.ninf, PyNum.ninf => PyNum.nan

/-- A value that may be a scalar (Python `int`/`float`) or a pandas
`Series` of floats.  `safe_divide` branches on exactly this distinction
(`isinstance(b, (int, float))`, `isinstance(result, pd.Series)`). -/
inductive PdVal where
  | scalar : PyNum → PdVal
  | series : List PyNum → PdVal
deriving DecidableEq

/-- Broadcasting division `a / b` as pandas/numpy perform it.  Series are
assumed index-aligned (equal length), as they are at every call site in
the source. -/
def pdDiv : PdVal → PdVal → PdVal
  | PdVal.scalar a, PdVal.scalar b => PdVal.scalar (fdiv a b)
  | PdVal.scalar a, PdVal.series bs => PdVal.series (bs.map (fun b => fdiv a b))
  | PdVal.series as, PdVal.scalar b => PdVal.series (as.map (fun a => fdiv a b))
  | PdVal.series as, PdVal.series bs => PdVal.series (List.zipWith fdiv as bs)

/-- The cleanup tail of `safe_divide` (source lines 29-31): if the result
is a Series, `fillna(0)` and replace `±inf` by `0`; a scalar result is
returned unchanged. -/
def sdClean : PdVal → PdVal
  | PdVal.scalar x => PdVal.scalar x
  | PdVal.series xs =>
      PdVal.series (xs.map (fun x => match x with
        | PyNum.fin q => PyNum.fin q
        | _ => PyNum.fin 0))

/-- `safe_divide` (source lines 19-31).  Scalar denominator: `a / b if
b != 0 else 0`.  Series denominator: replace `0` by NaN in `b`, then
divide.  Finally the Series cleanup above. -/
def safe_divide (a b : PdVal) : PdVal :=
  match b with
  | PdVal.scalar bv =>
      if bv = PyNum.fin 0 then PdVal.scalar (PyNum.fin 0)
      else sdClean (pdDiv a (PdVal.scalar bv))
  | PdVal.series bs =>
      sdClean (pdDiv a (PdVal.series
        (bs.map (fun x => if x = PyNum.fin 0 then PyNum.nan else x))))

/-- Each entry of a Series is a finite float; a scalar is finite. -/
def pdAllFinite : PdVal → Prop
  | PdVal.scalar x => ∃ q, x = PyNum.fin q
  | PdVal.series xs => ∀ x ∈ xs, ∃ q, x = PyNum.fin q

/-! ### Risk categorisation (source lines 615-620) -/

/-- `categorize_risk` (source lines 615-620). -/
def categorize_risk (risk_score : ℚ) : String :=
  if risk_score < 3/10 then "Low Risk"
  else if risk_score < 7/10 then "Moderate Risk"
  else "High Risk"

/-! ### Sector risk (source lines 124-179) -/

/-- A sector attribute value: a number (`int`/`float`, modelled exactly
as a rational) or a string. -/
inductive AttrVal where
  | num : ℚ → AttrVal
  | str : String → AttrVal
deriving DecidableEq

/-- Python `str()` of an attribute value, used for the categorical
modifier table lookups `modifier.get(str(...), 0)`.  Numbers are rendered
via `toString`; the tables only contain alphabetic keys, so no numeric
rendering ever matches a table key. -/
def pyStr : AttrVal → String
  | AttrVal.num q => toString q
  | AttrVal.str s => s

/-- A Python dict of sector attributes, as an insertion-ordered
association list with distinct keys. -/
abbrev AttrDict := List (String × AttrVal)

/-- The `sector_data` dict: sector tag → attribute dict, insertion
ordered. -/
abbrev SectorDict := List (String × AttrDict)

/-- The dynamically-typed value passed as `sector_data`.  A string input
is `eval`-ed first (source line 128): `strOfDict` is a string rendering a
dict literal, `strBad` a string whose `eval` raises.  Any other non-dict
value falls to the `not isinstance(sector_data, dict)` branch. -/
inductive SectorInput where
  | dict : SectorDict → SectorInput
  | strOfDict : SectorDict → SectorInput
  | strBad : SectorInput
  | nonDict : SectorInput
deriving DecidableEq

/-- A sector modifier (source lines 136-163): either a categorical lookup
table or a callable threshold rule on a numeric attribute. -/
inductive Modifier where
  | table : List (String × ℚ) → Modifier
  | func : (ℚ → ℚ) → Modifier

/-- The `sector_base_risk` rule table (source lines 136-163), with each
sector's base risk and its modifiers in source order. -/
def sector_base_risk : List (String × ℚ × List (String × Modifier)) :=
  [("farming", (7/10,
      [("irrigation_type", Modifier.table [("rainfed", 2/10), ("irrigated", -(1/10))]),
       ("land_ownership", Modifier.table [("leased", 1/10), ("owned", -(1/10))]),
       ("crop_diversity", Modifier.func (fun x => if 2 < x then -(1/10) else 1/10))])),
   ("business", (1/2,
      [("years", Modifier.func (fun x => if 5 < x then -(1/10) else 1/10)),
       ("type", Modifier.table [("retail", 1/10), ("manufacturing", 2/10), ("service", 0)])])),
   ("student", (3/10,
      [("course_type", Modifier.table
         [("engineering", -(1/10)), ("medical", -(1/10)), ("business", 0), ("arts", 1/10)])]))]

/-- Apply one modifier to an attribute value (source lines 169-174).
A table modifier adds `table.get(str(value), 0)`; a callable modifier
applied to a string raises `TypeError` (the numeric comparison inside is
unordered against `str`), modelled as `none`. -/
def applyModifier : Modifier → AttrVal → Option ℚ
  | Modifier.table t, v => some ((dictGet (pyStr v) t).getD 0)
  | Modifier.func f, AttrVal.num q => some (f q)
  | Modifier.func _, AttrVal.str _ => none

/-- Walk the sector's modifiers in order (source lines 167-174): a
modifier fires only if its key is present in the attribute dict; `none`
means an exception escaped the loop. -/
def applyMods (info : AttrDict) : List (String × Modifier) → ℚ → Option ℚ
  | [], risk => some risk
  | (k, m) :: rest, risk =>
      match dictGet k info with
      | none => applyMods info rest risk
      | some v =>
          match applyModifier m v with
          | none => none
          | some d => applyMods info rest (risk + d)

/-- Clamp to `[0, 1]` (source line 176: `max(0, min(1, risk))`). -/
def clamp01 (r : ℚ) : ℚ := max 0 (min 1 r)

/-- Evaluate a sector dict (source lines 133-176): take the first key of
the dict (`next(iter(...))` — raises on an empty dict, modelled `none`),
look up its base risk (unknown tag → `0.5`, no modifiers), apply the
modifiers, clamp.  `none` models an exception reaching the bare
`except`. -/
def evalSectorDict : SectorDict → Option ℚ
  | [] => none
  | (tag, attrs) :: rest =>
      let info := (dictGet tag ((tag, attrs) :: rest)).getD []
      let res :=
        match dictGet tag sector_base_risk with
        | none => some (1/2)
        | some (base, mods) => applyMods info mods base
      res.map clamp01

/-- `calculate_sector_risk` (source lines 124-179): strings are `eval`-ed,
non-dicts return `0.5`, and the bare `except` turns every raised
exception into `0.5`. -/
def calculate_sector_risk : SectorInput → ℚ
  | SectorInput.strBad => 1/2
  | SectorInput.nonDict => 1/2
  | SectorInput.dict d => (evalSectorDict d).getD (1/2)
  | SectorInput.strOfDict d => (evalSectorDict d).getD (1/2)

/-! ### Payment-history features (source lines 203-254) -/

/-- One payment record dict.  Dates (`%Y-%m-%d`, parsed by `strptime`)
are modelled as day numbers; `(payment_date - due_date).days` is then
integer subtraction.  `amount_paid` is optional (source line 237 checks
for the key). -/
structure Payment where
  due_date : ℤ
  payment_date : ℤ
  amount_paid : Option ℚ
deriving DecidableEq

/-- An element of a payment-history list: a payment dict, or any
non-dict value, which the loop skips (`isinstance(payment, dict)`,
source line 231). -/
inductive HistEntry where
  | pay : Payment → HistEntry
  | nondict : HistEntry
deriving DecidableEq

/-- The dynamically-typed per-row payment history.  A string is `eval`-ed
first (source lines 206-216): `strOfList` is a string rendering a list
literal, `strBad` one whose `eval` raises. -/
inductive HistoryInput where
  | list : List HistEntry → HistoryInput
  | strOfList : List HistEntry → HistoryInput
  | strBad : HistoryInput
deriving DecidableEq

/-- The five payment features returned per row (source lines 246-252).
Counts are carried as rationals, as the values live in a float Series. -/
structure PaymentFeatures where
  payment_regularity : ℚ
  late_payments : ℚ
  avg_payment_delay : ℚ
  payment_volatility : ℚ
  payment_trend : ℚ
deriving DecidableEq

/-- The neutral feature set returned for an empty or unparseable history
(source lines 210-225). -/
def neutralPaymentFeatures : PaymentFeatures :=
  { payment_regularity := 1, late_payments := 0, avg_payment_delay := 0,
    payment_volatility := 0, payment_trend := 0 }

/-- Per-record delay in days (source lines 232-235):
`max(0, payment_date - due_date)`. -/
def delay_days (p : Payment) : ℤ := max 0 (p.payment_date - p.due_date)

/-- The `delays` list accumulated by the loop (dict entries only). -/
def histDelays (es : List HistEntry) : List ℤ :=
  es.filterMap (fun e => match e with
    | HistEntry.pay p => some (delay_days p)
    | HistEntry.nondict => none)

/-- The `payment_amounts` list accumulated by the loop (dict entries
carrying `amount_paid` only). -/
def histAmounts (es : List HistEntry) : List ℚ :=
  es.filterMap (fun e => match e with
    | HistEntry.pay p => p.amount_paid
    | HistEntry.nondict => none)

/-- `np.mean` of a rational list (`0/0 = 0` in `ℚ` covers the empty
case, which the source guards anyway). -/
def npMean (xs : List ℚ) : ℚ := xs.sum / (xs.length : ℚ)

/-- `np.diff`: successive differences. -/
def npDiff (xs : List ℤ) : List ℤ := List.zipWith (fun a b => b - a) xs xs.tail

/-- Rational square root, exact whenever the argument is the square of a
rational and `0` on nonpositive input.  `np.std` is irrational in
general; every standard deviation evaluated in this development is of a
list with at most one element, where the variance is `0` and this model
is exact. -/
def ratSqrt (q : ℚ) : ℚ :=
  if q ≤ 0 then 0 else (Nat.sqrt q.num.toNat : ℚ) / (Nat.sqrt q.den : ℚ)

/-- `np.std` (population standard deviation) under the `ratSqrt` caveat
above. -/
def npStd (xs : List ℚ) : ℚ :=
  ratSqrt (npMean (xs.map (fun x => (x - npMean xs) ^ 2)))

/-- The inner `analyze_payments` on an already-parsed history list
(source lines 218-252): empty list → neutral set; otherwise collect
delays (dict entries only) and amounts, and aggregate. -/
def analyze_payments (es : List HistEntry) : PaymentFeatures :=
  if es = [] then neutralPaymentFeatures
  else
    let delays := histDelays es
    let amounts := histAmounts es
    let payment_trend : ℚ :=
      if 1 < delays.length then -(npMean ((npDiff delays).map (fun d => (d : ℚ)))) else 0
    { payment_regularity :=
        if delays = [] then 1 else 1 - ((delays.sum : ℚ) / ((delays.length : ℚ) * 30)),
      late_payments := ((delays.countP (fun d => decide (0 < d)) : ℕ) : ℚ),
      avg_payment_delay := if delays = [] then 0 else (delays.sum : ℚ) / (delays.length : ℚ),
      payment_volatility := if amounts = [] then 0 else npStd amounts,
      payment_trend := payment_trend }

/-- `extract_payment_features` restricted to one row of the Series it
maps over (source lines 203-254): strings are `eval`-ed, an unparseable
string yields the neutral set. -/
def extract_payment_features : HistoryInput → PaymentFeatures
  | HistoryInput.strBad => neutralPaymentFeatures
  | HistoryInput.list es => analyze_payments es
  | HistoryInput.strOfList es => analyze_payments es

/-! ### Categorical encoding (source lines 32-39) -/

/-- Insert into a `≤`-sorted list of strings. -/
def insertSorted (x : String) : List String → List String
  | [] => [x]
  | y :: ys => if x ≤ y then x :: y :: ys else y :: insertSorted x ys

/-- Insertion sort on strings. -/
def insertionSortStr (xs : List String) : List String := xs.foldr insertSorted []

/-- `LabelEncoder.fit`: `classes_ = np.unique(values)` — the sorted list
of distinct observed values. -/
def fitClasses (xs : List String) : List String := (insertionSortStr xs).dedup

/-- Position of a value in the fitted class list; `none` when the value
was not seen during fit (sklearn raises `ValueError: y contains
previously unseen labels`, the failure the spec names `UnknownCategory`). -/
def classIndex : List String → String → Option ℕ
  | [], _ => none
  | c :: cs, v => if v = c then some 0 else (classIndex cs v).map (fun i => i + 1)

/-- `LabelEncoder.transform`: every value must have been seen during fit,
otherwise the call fails. -/
def labelTransform (classes : List String) (xs : List String) : Option (List ℕ) :=
  xs.mapM (classIndex classes)

/-- The per-field encoder state `self.label_encoders`: field name → fitted
class list, insertion ordered. -/
abbrev EncoderState := List (String × List String)

/-- `encode_categorical` (source lines 32-39): the first call for a field
name stores a freshly fitted encoder and returns `fit_transform`;
subsequent calls reuse the stored mapping via `transform`, which fails on
unseen values.  Returns the codes (or `none` for a raised error) and the
updated encoder state. -/
def encode_categorical (encoders : EncoderState) (series : List String)
    (name : String) : Option (List ℕ) × EncoderState :=
  match dictGet name encoders with
  | none =>
      let cls := fitClasses series
      (labelTransform cls series, encoders ++ [(name, cls)])
  | some cls => (labelTransform cls series, encoders)

/-! ### Amortization schedule (source lines 461-485) -/

/-- Python `round(x)` (banker's rounding, half to even) on an exact
rational. -/
def bankersRound (x : ℚ) : ℤ :=
  let f := ⌊x⌋
  let frac := x - (f : ℚ)
  if frac < 1/2 then f
  else if 1/2 < frac then f + 1
  else if f % 2 = 0 then f else f + 1

/-- Python `round(x, nd)`. -/
def pyRound (x : ℚ) (nd : ℕ) : ℚ :=
  ((bankersRound (x * (10 : ℚ) ^ nd) : ℚ)) / (10 : ℚ) ^ nd

/-- One row of the amortization schedule (source lines 471-483).  The
`due_date`/`reminder_dates` strings are anchored to `datetime.now()` and
carry no numeric content; they are not modelled. -/
structure ScheduleEntry where
  payment_number : ℕ
  payment_amount : ℚ
  principal : ℚ
  interest : ℚ
  remaining_balance : ℚ
deriving DecidableEq

/-- The loop of `create_detailed_schedule` (source lines 465-483),
recursing over the remaining months and threading the unrounded balance:
`interest = balance * rate / 1200`, `principal = payment - interest`,
`balance -= principal`; the displayed balance is `round(max(0, .), 2)`. -/
def scheduleAux (interest_rate monthly_payment : ℚ) : ℕ → ℕ → ℚ → List ScheduleEntry
  | 0, _, _ => []
  | Nat.succ k, month, balance =>
      let interest_payment := balance * interest_rate / 1200
      let principal_payment := monthly_payment - interest_payment
      let balance' := balance - principal_payment
      { payment_number := month + 1,
        payment_amount := pyRound monthly_payment 2,
        principal := pyRound principal_payment 2,
        interest := pyRound interest_payment 2,
        remaining_balance := pyRound (max 0 balance') 2 } ::
        scheduleAux interest_rate monthly_payment k (month + 1) balance'

/-- `create_detailed_schedule` (source lines 461-485), with the loan
fields passed directly (`loan_term_months` is already integral; the
source truncates it with `int()`). -/
def create_detailed_schedule (loan_amount interest_rate : ℚ)
    (loan_term_months : ℕ) (monthly_payment : ℚ) : List ScheduleEntry :=
  scheduleAux interest_rate monthly_payment loan_term_months 0 loan_amount

/-! ### The single-record inference path (source lines 40-117, 357-405) -/

/-- IEEE-754 addition on `PyNum`: NaN propagates; opposite infinities
give NaN. -/
def pyAdd : PyNum → PyNum → PyNum
  | PyNum.nan, _ => PyNum.nan
  | _, PyNum.nan => PyNum.nan
  | PyNum.fin a, PyNum.fin b => PyNum.fin (a + b)
  | PyNum.fin _, PyNum.pinf => PyNum.pinf
  | PyNum.pinf, PyNum.fin _ => PyNum.pinf
  | PyNum.pinf, PyNum.pinf => PyNum.pinf
  | PyNum.pinf, PyNum.ninf => PyNum.nan
  | PyNum.ninf, PyNum.pinf => PyNum.nan
  | PyNum.ninf, PyNum.fin _ => PyNum.ninf
  | PyNum.fin _, PyNum.ninf => PyNum.ninf
  | PyNum.ninf, PyNum.ninf => PyNum.ninf

/-- IEEE-754 multiplication on `PyNum`: NaN propagates; `0 × ±inf` is
NaN; otherwise infinities keep the sign of the product. -/
def pyMul : PyNum → PyNum → PyNum
  | PyNum.nan, _ => PyNum.nan
  | _, PyNum.nan => PyNum.nan
  | PyNum.fin a, PyNum.fin b => PyNum.fin (a * b)
  | PyNum.pinf, PyNum.fin b =>
      if b = 0 then PyNum.nan else if 0 < b then PyNum.pinf else PyNum.ninf
  | PyNum.fin a, PyNum.pinf =>
      if a = 0 then PyNum.nan else if 0 < a then PyNum.pinf else PyNum.ninf
  | PyNum.ninf, PyNum.fin b =>
      if b = 0 then PyNum.nan else if 0 < b then PyNum.ninf else PyNum.pinf
  | PyNum.fin a, PyNum.ninf =>
      if a = 0 then PyNum.nan else if 0 < a then PyNum.ninf else PyNum.pinf
  | PyNum.pinf, PyNum.pinf => PyNum.pinf
  | PyNum.pinf, PyNum.ninf => PyNum.ninf
  | PyNum.ninf, PyNum.pinf => PyNum.ninf
  | PyNum.ninf, PyNum.ninf => PyNum.pinf

/-- The explicit stream of pre-drawn values standing for the ambient
`np.random` generator: each `np.random.*` call on this path consumes the
next stream value (all draws have size 1, since the inference path
processes the one-row frame `pd.DataFrame([user_data])`).  A normal draw
whose `scale` argument is a finite constant yields the (finite) stream
value; a normal draw whose `scale` is the standard deviation of a
single-element column still consumes a stream value but is NaN
regardless of it: pandas `Series.std()` (ddof = 1) of one element is
NaN, and numpy's scale validation admits NaN, so
`np.random.normal(0, NaN)` silently returns NaN. -/
abbrev RandStream := List ℚ

/-- Consume one draw (an exhausted stream yields 0). -/
def draw (r : RandStream) : ℚ × RandStream := (r.headD 0, r.tail)

/-- The single entry of `safe_divide` applied to one-row Series operands
— how the ratio features of `preprocess_data` evaluate on the one-row
frame. -/
def safeDivSS (a b : PyNum) : PyNum :=
  match safe_divide (PdVal.series [a]) (PdVal.series [b]) with
  | PdVal.series (v :: _) => v
  | _ => PyNum.fin 0

/-- The single entry of `safe_divide` with a one-row Series numerator
and a scalar denominator (the constant denominators `100000` and `100`).
A zero scalar denominator makes `safe_divide` return the scalar `0`,
which broadcasts to `0` on assignment — the fallback arm. -/
def safeDivSc (a c : PyNum) : PyNum :=
  match safe_divide (PdVal.series [a]) (PdVal.scalar c) with
  | PdVal.series (v :: _) => v
  | _ => PyNum.fin 0

/-- The borrower record (one row), fields in the column order of the API
request model (`loan_status` is part of the request and is required by
`preprocess_data`).  Request fields are finite floats. -/
structure UserData where
  monthly_income : ℚ
  loan_amount : ℚ
  interest_rate : ℚ
  loan_term_months : ℚ
  credit_score : ℚ
  age : ℚ
  borrower_type : String
  sector_data : SectorInput
  payment_history : HistoryInput
  loan_status : String

/-- The state of `self.feature_scaler` (a `StandardScaler`): fitted
per-column means and scales, or `none` before any fit. -/
structure ScalerState where
  mean : Option (List PyNum)
  scale : Option (List PyNum)
deriving DecidableEq

/-- `StandardScaler.fit_transform` on a one-row batch (the scaler admits
NaN input — sklearn's allow-nan estimators): per column, the nan-mean of
a single value is that value, the variance is 0 for a finite value (a
zero scale is replaced by 1) and NaN for a NaN value, and the
transformed entry is 0 resp. NaN.  The previous scaler state is
discarded entirely. -/
def fit_transform_single (vals : List PyNum) : ScalerState × List PyNum :=
  ({ mean := some vals,
     scale := some (vals.map (fun v => match v with
       | PyNum.fin _ => PyNum.fin 1
       | _ => PyNum.nan)) },
   vals.map (fun v => match v with
     | PyNum.fin _ => PyNum.fin 0
     | _ => PyNum.nan))

/-- One numeric-feature pass of the preprocessing loop (source lines
48-57): `np.random.normal(0, df[col].std() * 0.15)` — the singleton std
is NaN, so the added noise is NaN and the column becomes NaN, though a
draw is still consumed; the `np.random.random()` coin then chooses
mean- vs median-fill, and filling with the NaN column mean changes
nothing. -/
def noiseFill (v : PyNum) (r : RandStream) : PyNum × RandStream :=
  let p1 := draw r
  let p2 := draw p1.2
  (pyAdd v PyNum.nan, p2.2)

/-- The 5%-random-modification pass over the numeric columns (source
lines 113-115): per column one uniform draw, and when it is `< 0.05` one
further normal draw (finite scale `0.2`) scaling the value by
`(1 + g)`. -/
def randomModify : List (String × PyNum) → RandStream → List (String × PyNum) × RandStream
  | [], r => ([], r)
  | (k, v) :: rest, r =>
      let p1 := draw r
      let q := if p1.1 < 1/20 then
                 (let p2 := draw p1.2; (pyMul v (PyNum.fin (1 + p2.1)), p2.2))
               else (v, p1.2)
      let prest := randomModify rest q.2
      ((k, q.1) :: prest.1, prest.2)

/-- `preprocess_data` (source lines 40-117) on the one-row frame.  The
numeric columns are listed in DataFrame insertion order (`sector_data`
and `payment_history` remain object columns).  On this path the six
`numeric_features` columns become NaN (their noise has NaN scale), so
the safe-divide ratio features evaluate to 0 through the Series cleanup,
and `borrower_type_freq` (1.0 for a single row, plus NaN-scaled noise)
becomes NaN; `sector_risk` and the payment features are multiplied by
finite `(1 + noise)` factors, their noise scales being the constant 0.1;
the max-abs infinity replacement (lines 107-110) never fires as no
infinities arise.  A raised library error (unseen categorical value) is
`none`. -/
def preprocess_data_single (encoders : EncoderState) (u : UserData) (r : RandStream) :
    Option (List (String × PyNum) × EncoderState × RandStream) :=
  let pmi := noiseFill (PyNum.fin u.monthly_income) r
  let pla := noiseFill (PyNum.fin u.loan_amount) pmi.2
  let pir := noiseFill (PyNum.fin u.interest_rate) pla.2
  let plt := noiseFill (PyNum.fin u.loan_term_months) pir.2
  let pcs := noiseFill (PyNum.fin u.credit_score) plt.2
  let pag := noiseFill (PyNum.fin u.age) pcs.2
  let pg1 := draw pag.2
  let itl := safeDivSS (pyMul (pyMul pmi.1 plt.1) (PyNum.fin (1 + pg1.1))) pla.1
  let pg2 := draw pg1.2
  let cii := safeDivSc (pyMul (pyMul pcs.1 pmi.1) (PyNum.fin (1 + pg2.1))) (PyNum.fin 100000)
  let pmask := draw pg2.2
  let aci := pyMul (safeDivSc (pyMul pag.1 pcs.1) (PyNum.fin 100)) (PyNum.fin pmask.1)
  let pg3 := draw pmask.2
  let btf := pyAdd (PyNum.fin 1) PyNum.nan
  match encode_categorical encoders [u.borrower_type] "borrower_type" with
  | (none, _) => none
  | (some btCodes, enc1) =>
    match encode_categorical enc1 [u.loan_status] "loan_status" with
    | (none, _) => none
    | (some lsCodes, enc2) =>
      let bt := PyNum.fin ((btCodes.headD 0 : ℕ) : ℚ)
      let ls := PyNum.fin ((lsCodes.headD 0 : ℕ) : ℚ)
      let pg4 := draw pg3.2
      let sr := pyMul (PyNum.fin (calculate_sector_risk u.sector_data)) (PyNum.fin (1 + pg4.1))
      let pf := extract_payment_features u.payment_history
      let ph1 := draw pg4.2
      let ph2 := draw ph1.2
      let ph3 := draw ph2.2
      let ph4 := draw ph3.2
      let ph5 := draw ph4.2
      let pg5 := draw ph5.2
      let dti := safeDivSS (pyMul pla.1 (PyNum.fin (1 + pg5.1))) (pyMul pmi.1 plt.1)
      let pg6 := draw pg5.2
      let mpr := pyMul (safeDivSS (safeDivSS pla.1 plt.1) pmi.1) (PyNum.fin (1 + pg6.1))
      let row : List (String × PyNum) :=
        [("monthly_income", pmi.1), ("loan_amount", pla.1), ("interest_rate", pir.1),
         ("loan_term_months", plt.1), ("credit_score", pcs.1), ("age", pag.1),
         ("borrower_type", bt), ("loan_status", ls),
         ("income_to_loan_ratio", itl), ("credit_income_interaction", cii),
         ("age_credit_interaction", aci), ("borrower_type_freq", btf),
         ("sector_risk", sr),
         ("payment_regularity", pyMul (PyNum.fin pf.payment_regularity) (PyNum.fin (1 + ph1.1))),
         ("late_payments", pyMul (PyNum.fin pf.late_payments) (PyNum.fin (1 + ph2.1))),
         ("avg_payment_delay", pyMul (PyNum.fin pf.avg_payment_delay) (PyNum.fin (1 + ph3.1))),
         ("payment_volatility", pyMul (PyNum.fin pf.payment_volatility) (PyNum.fin (1 + ph4.1))),
         ("payment_trend", pyMul (PyNum.fin pf.payment_trend) (PyNum.fin (1 + ph5.1))),
         ("debt_to_income", dti), ("monthly_payment_ratio", mpr)]
      let pmod := randomModify row pg6.2
      some (pmod.1, enc2, pmod.2)

/-- The fixed 18-name feature list of `prepare_features` (source lines
359-366). -/
def featureNames : List String :=
  ["monthly_income", "loan_amount", "interest_rate", "loan_term_months",
   "credit_score", "age", "borrower_type", "sector_risk",
   "payment_regularity", "late_payments", "avg_payment_delay",
   "payment_volatility", "debt_to_income", "monthly_payment_ratio",
   "income_to_loan_ratio", "credit_income_interaction",
   "age_credit_interaction", "borrower_type_freq"]

/-- The random feature dropout (source line 369): one uniform draw per
name, a name is kept when its draw is `> 0.1`. -/
def dropFeatures : List String → RandStream → List String × RandStream
  | [], r => ([], r)
  | f :: fs, r =>
      let p := draw r
      let prest := dropFeatures fs p.2
      (if 1/10 < p.1 then f :: prest.1 else prest.1, prest.2)

/-- The per-column clip-and-noise pass of `prepare_features` (source
lines 374-383) on a one-row frame: the 1st/99th percentile of a single
value is that value, so the clip is a no-op, and the added noise
`np.random.normal(0, X[col].std() * 0.1)` has the NaN singleton std as
scale — every column becomes NaN, one draw consumed per column. -/
def addNanScaledNoise : List PyNum → RandStream → List PyNum × RandStream
  | [], r => ([], r)
  | v :: vs, r =>
      let p := draw r
      let prest := addNanScaledNoise vs p.2
      ((pyAdd v PyNum.nan) :: prest.1, prest.2)

/-- The final noise layer on the scaled matrix (source lines 388-390):
`np.random.normal(0, 0.1, shape)` — a finite constant scale, one finite
draw added per entry. -/
def addDrawnNoise : List PyNum → RandStream → List PyNum × RandStream
  | [], r => ([], r)
  | v :: vs, r =>
      let p := draw r
      let prest := addDrawnNoise vs p.2
      ((pyAdd v (PyNum.fin p.1)) :: prest.1, prest.2)

/-- `prepare_features` (source lines 357-390) on the one-row preprocessed
frame: random feature dropout, selection of the features present among
the columns, the (no-op) percentile clip with NaN-scaled per-column
noise — which turns every selected column NaN — then
`self.feature_scaler.fit_transform`, a RE-FIT of the scaler on the
request batch (recording NaN statistics and discarding the passed-in
scaler state), and the finite final noise layer, which leaves NaN.
Returns the new scaler state and the (all-NaN) model-input row. -/
def prepare_features_single (scaler : ScalerState) (row : List (String × PyNum))
    (r : RandStream) : ScalerState × List PyNum × RandStream :=
  let pkeep := dropFeatures featureNames r
  let available := pkeep.1.filter (fun f => (dictGet f row).isSome)
  let x := available.map (fun f => (dictGet f row).getD (PyNum.fin 0))
  let pnoise := addNanScaledNoise x pkeep.2
  let pscale := fit_transform_single pnoise.1
  let pfinal := addDrawnNoise pscale.2 pnoise.2
  (pscale.1, pfinal.1, pfinal.2)

/-- A trained XGBoost booster as the inference path sees it: the feature
count it was fitted on and an opaque scoring function
(`predict_proba(X)[0][1]` resp. `predict(X)[0]`). -/
structure TrainedModel where
  n_features : ℕ
  score : List PyNum → ℚ

/-- `predict`/`predict_proba` of a trained booster: XGBoost validates
the feature count and raises on a mismatch (modelled `none`); NaN
entries are legal input (missing-value branches). -/
def predictModel (m : TrainedModel) (x : List PyNum) : Option ℚ :=
  if x.length = m.n_features then some (m.score x) else none

/-- The numeric core of the returned guidance package (source lines
400-414, 453-459): raw model outputs, the categorised risk tier, and the
rounded displayed values.  The remaining package components (factor
lists, strategy/recommendation strings, monitoring plan, schedule dates)
are deterministic string/table lookups on these values and the raw
record. -/
structure GuidanceResult where
  risk_score : ℚ
  predicted_payment : ℚ
  risk_level : String
  risk_score_displayed : ℚ
  monthly_payment : ℚ
deriving DecidableEq

/-- `generate_comprehensive_guidance` (source lines 392-405) on one
borrower record.  Returns the guidance core together with the object
state (`label_encoders`, `feature_scaler`) after the call; `none` models
a raised library error (unseen categorical value, or a feature-count
mismatch rejected by the boosters after the random dropout). -/
def generate_comprehensive_guidance
    (risk_model payment_predictor : TrainedModel)
    (encoders : EncoderState) (scaler : ScalerState)
    (u : UserData) (r : RandStream) :
    Option (GuidanceResult × EncoderState × ScalerState) :=
  match preprocess_data_single encoders u r with
  | none => none
  | some (row, enc', r1) =>
      let prep := prepare_features_single scaler row r1
      match predictModel risk_model prep.2.1 with
      | none => none
      | some risk_score =>
          match predictModel payment_predictor prep.2.1 with
          | none => none
          | some predicted_payment =>
              some ({ risk_score := risk_score,
                      predicted_payment := predicted_payment,
                      risk_level := categorize_risk risk_score,
                      risk_score_displayed := pyRound risk_score 4,
                      monthly_payment := pyRound predicted_payment 2 },
                    enc', prep.1)

/-! ### Concrete instances for the inference-path claims -/

/-- A concrete trained risk classifier, fitted on 18 features; on the
all-NaN row the booster walks its missing-value branches to a fixed
probability, here `1/2`. -/
def riskModelC : TrainedModel := { n_features := 18, score := fun _ => 1/2 }

/-- A concrete trained payment regressor, fitted on 18 features. -/
def paymentPredictorC : TrainedModel := { n_features := 18, score := fun _ => 1389 }

/-- Encoder state after training: both categorical fields fitted. -/
def encodersC : EncoderState :=
  [("borrower_type", ["business"]), ("loan_status", ["Charged Off"])]

/-- Scaler state after training (fitted on an 18-feature batch with
finite statistics). -/
def scalerC : ScalerState :=
  { mean := some (List.replicate 18 (PyNum.fin 0)),
    scale := some (List.replicate 18 (PyNum.fin 1)) }

/-- The scaler state a single-record call re-fits: singleton statistics
of an all-NaN row. -/
def scalerNanC : ScalerState :=
  { mean := some (List.replicate 18 PyNum.nan),
    scale := some (List.replicate 18 PyNum.nan) }

/-- The borrower record of the repository's own smoke test
(`app/main.py` lines 79-101). -/
def userC : UserData :=
  { monthly_income := 5000, loan_amount := 50000, interest_rate := 17/2,
    loan_term_months := 36, credit_score := 720, age := 30,
    borrower_type := "business",
    sector_data := SectorInput.dict
      [("business", [("years", AttrVal.num 6), ("type", AttrVal.str "retail")])],
    payment_history := HistoryInput.list [HistEntry.pay ⟨0, 0, some 1500⟩],
    loan_status := "Charged Off" }

/-- A stream of 98 unit draws — exactly the number the inference path
consumes on `userC` (44 in `preprocess_data`, 54 in `prepare_features`):
every dropout coin keeps its feature, no 5%-modification fires, and
every finite-scale noise draw is `1` (the NaN-scaled draws consume their
stream values without using them). -/
def streamOnes : RandStream :=
  [1, 1, 1, 1, 1, 1, 1, 1, 1, 1, 1, 1, 1, 1, 1, 1, 1, 1, 1, 1, 1, 1, 1, 1, 1, 1, 1, 1, 1, 1,
   1, 1, 1, 1, 1, 1, 1, 1, 1, 1, 1, 1, 1, 1, 1, 1, 1, 1, 1, 1, 1, 1, 1, 1, 1, 1, 1, 1, 1, 1,
   1, 1, 1, 1, 1, 1, 1, 1, 1, 1, 1, 1, 1, 1, 1, 1, 1, 1, 1, 1, 1, 1, 1, 1, 1, 1, 1, 1, 1, 1,
   1, 1, 1, 1, 1, 1, 1, 1]

/-- The same stream with only the very last draw — the final noise draw
added to the last feature column — changed to `1/2`. -/
def streamLastHalf : RandStream :=
  [1, 1, 1, 1, 1, 1, 1, 1, 1, 1, 1, 1, 1, 1, 1, 1, 1, 1, 1, 1, 1, 1, 1, 1, 1, 1, 1, 1, 1, 1,
   1, 1, 1, 1, 1, 1, 1, 1, 1, 1, 1, 1, 1, 1, 1, 1, 1, 1, 1, 1, 1, 1, 1, 1, 1, 1, 1, 1, 1, 1,
   1, 1, 1, 1, 1, 1, 1, 1, 1, 1, 1, 1, 1, 1, 1, 1, 1, 1, 1, 1, 1, 1, 1, 1, 1, 1, 1, 1, 1, 1,
   1, 1, 1, 1, 1, 1, 1, 1/2]

/-- The last 54 entries of `streamOnes`: the stream remaining after
`preprocess_data` has consumed its 44 draws. -/
def tail54Ones : RandStream :=
  [1, 1, 1, 1, 1, 1, 1, 1, 1, 1, 1, 1, 1, 1, 1, 1, 1, 1, 1, 1, 1, 1, 1, 1, 1, 1, 1, 1, 1, 1, 1, 1, 1, 1, 1, 1, 1, 1, 1, 1, 1, 1, 1, 1, 1, 1, 1, 1, 1, 1, 1, 1, 1, 1]

/-- The last 54 entries of `streamLastHalf`. -/
def tail54LastHalf : RandStream :=
  [1, 1, 1, 1, 1, 1, 1, 1, 1, 1, 1, 1, 1, 1, 1, 1, 1, 1, 1, 1, 1, 1, 1, 1, 1, 1, 1, 1, 1, 1, 1, 1, 1, 1, 1, 1, 1, 1, 1, 1, 1, 1, 1, 1, 1, 1, 1, 1, 1, 1, 1, 1, 1, 1/2]

/-- The feature row `preprocess_data` produces from `userC` under
`streamOnes` (and under `streamLastHalf`, whose changed draw comes
later): the six noise-poisoned numeric columns and `borrower_type_freq`
are NaN, the category codes are 0, every safe-divide ratio is 0, and
`sector_risk` and the payment features carry their finite values times
the `(1 + 1)` noise factors. -/
def rowNanOnesC : List (String × PyNum) :=
  [("monthly_income", PyNum.nan), ("loan_amount", PyNum.nan),
   ("interest_rate", PyNum.nan), ("loan_term_months", PyNum.nan),
   ("credit_score", PyNum.nan), ("age", PyNum.nan),
   ("borrower_type", PyNum.fin 0), ("loan_status", PyNum.fin 0),
   ("income_to_loan_ratio", PyNum.fin 0), ("credit_income_interaction", PyNum.fin 0),
   ("age_credit_interaction", PyNum.fin 0), ("borrower_type_freq", PyNum.nan),
   ("sector_risk", PyNum.fin 1),
   ("payment_regularity", PyNum.fin 2), ("late_payments", PyNum.fin 0),
   ("avg_payment_delay", PyNum.fin 0), ("payment_volatility", PyNum.fin 0),
   ("payment_trend", PyNum.fin 0),
   ("debt_to_income", PyNum.fin 0), ("monthly_payment_ratio", PyNum.fin 0)]

/-- The full result of the concrete guidance call: the models score the
all-NaN row, and the scaler is left re-fitted to NaN statistics.  Both
`streamOnes` and `streamLastHalf` produce exactly this result. -/
def resC : GuidanceResult × EncoderState × ScalerState :=
  ({ risk_score := 1/2, predicted_payment := 1389, risk_level := "Moderate Risk",
     risk_score_displayed := 1/2, monthly_payment := 1389 },
   encodersC, scalerNanC)

/-! ### Claim theorems -/

/-- **C4.** `categorize_risk` maps every score to exactly one of the three
literal strings, with the documented half-open bands: `"Low Risk"` iff
`s < 0.3`, `"Moderate Risk"` iff `0.3 ≤ s < 0.7`, `"High Risk"` iff
`0.7 ≤ s`; in particular the boundaries `0.3` and `0.7` fall in the
higher-labelled band (`Moderate`, resp. `High`). -/
theorem categorize_risk_bands :
    (∀ s : ℚ,
      (categorize_risk s = "Low Risk" ↔ s < 3/10) ∧
      (categorize_risk s = "Moderate Risk" ↔ 3/10 ≤ s ∧ s < 7/10) ∧
      (categorize_risk s = "High Risk" ↔ 7/10 ≤ s)) ∧
    categorize_risk (3/10) = "Moderate Risk" ∧
    categorize_risk (7/10) = "High Risk" := by
  refine ⟨fun s => ?_, by norm_num [categorize_risk], by norm_num [categorize_risk]⟩
  unfold categorize_risk
  split_ifs with h1 h2 <;>
    refine ⟨⟨fun hs => ?_, fun hs => ?_⟩, ⟨fun hs => ?_, fun hs => ?_⟩,
      ⟨fun hs => ?_, fun hs => ?_⟩⟩ <;>
    first
      | assumption
      | rfl
      | (exact absurd hs (by decide))
      | (exact ⟨le_of_not_lt h1, h2⟩)
      | linarith

/-- The cleanup tail of `safe_divide` leaves every Series entry finite. -/
theorem sdClean_series_allFinite (xs : List PyNum) :
    pdAllFinite (sdClean (PdVal.series xs)) := by
  simp only [sdClean, pdAllFinite, List.mem_map]
  rintro y ⟨x, _, rfl⟩
  cases x <;> exact ⟨_, rfl⟩

/-- **C5 (counterexample).** The claim says `safe_divide` never returns
NaN for any input; but the scalar/scalar path returns the raw quotient,
so a NaN numerator with the nonzero denominator `1` yields NaN. -/
theorem safe_divide_nan_counterexample :
    safe_divide (PdVal.scalar PyNum.nan) (PdVal.scalar (PyNum.fin 1)) =
      PdVal.scalar PyNum.nan ∧
    PdVal.scalar PyNum.nan ≠ PdVal.scalar (PyNum.fin 0) := by
  exact ⟨rfl, by decide⟩

/-- **C5 (amended).** `safe_divide(x, 0) = 0` for every numerator with a
scalar zero denominator; every Series-denominator result is a Series all
of whose entries are finite (never NaN/Inf), and likewise when a Series
numerator is divided by a nonzero scalar; dividing finite scalars with a
nonzero denominator yields the exact finite quotient.  (The scalar/scalar
path with a non-finite operand can still return NaN/Inf, as the
counterexample shows; `safe_divide` itself never raises.) -/
theorem safe_divide_amended :
    (∀ a : PdVal, safe_divide a (PdVal.scalar (PyNum.fin 0)) =
      PdVal.scalar (PyNum.fin 0)) ∧
    (∀ (a : PdVal) (bs : List PyNum), pdAllFinite (safe_divide a (PdVal.series bs))) ∧
    (∀ (as : List PyNum) (b : PyNum), b ≠ PyNum.fin 0 →
      pdAllFinite (safe_divide (PdVal.series as) (PdVal.scalar b))) ∧
    (∀ x y : ℚ, y ≠ 0 →
      safe_divide (PdVal.scalar (PyNum.fin x)) (PdVal.scalar (PyNum.fin y)) =
        PdVal.scalar (PyNum.fin (x / y))) := by
  refine ⟨fun a => by simp [safe_divide], ?_, ?_, ?_⟩
  · intro a bs
    cases a <;> exact sdClean_series_allFinite _
  · intro as b hb
    have h : safe_divide (PdVal.series as) (PdVal.scalar b) =
        sdClean (pdDiv (PdVal.series as) (PdVal.scalar b)) := by
      simp [safe_divide, hb]
    rw [h]
    exact sdClean_series_allFinite _
  · intro x y hy
    simp [safe_divide, pdDiv, fdiv, hy, sdClean]

/-- **C5 (witness).** The amended theorem applied at concrete inputs. -/
theorem safe_divide_amended_witness :
    pdAllFinite (safe_divide (PdVal.series [PyNum.fin 3]) (PdVal.scalar (PyNum.fin 2))) ∧
    safe_divide (PdVal.scalar (PyNum.fin 6)) (PdVal.scalar (PyNum.fin 3)) =
      PdVal.scalar (PyNum.fin (6 / 3)) := by
  exact ⟨safe_divide_amended.2.2.1 [PyNum.fin 3] (PyNum.fin 2) (by decide),
    safe_divide_amended.2.2.2 6 3 (by norm_num)⟩

/-- A successful sector-dict evaluation is already clamped to `[0,1]`. -/
theorem evalSectorDict_some_mem_unit {d : SectorDict} {r : ℚ}
    (h : evalSectorDict d = some r) : 0 ≤ r ∧ r ≤ 1 := by
  cases d with
  | nil => simp [evalSectorDict] at h
  | cons hd tl =>
      obtain ⟨td, attrs⟩ := hd
      simp only [evalSectorDict, Option.map_eq_some'] at h
      obtain ⟨a, -, rfl⟩ := h
      refine ⟨le_max_left 0 _, max_le (by norm_num) (min_le_left 1 a)⟩

/-- **C7.** `calculate_sector_risk` never raises to the caller (it is a
total function: the bare `except` catches everything) and its value is
always in `[0,1]`; absent or malformed sector data — an unparseable
string, any non-dict value, or an empty dict — yields the neutral risk
`0.5`. -/
theorem calculate_sector_risk_total_bounded :
    (∀ x : SectorInput,
      0 ≤ calculate_sector_risk x ∧ calculate_sector_risk x ≤ 1) ∧
    calculate_sector_risk SectorInput.strBad = 1/2 ∧
    calculate_sector_risk SectorInput.nonDict = 1/2 ∧
    calculate_sector_risk (SectorInput.dict []) = 1/2 := by
  refine ⟨fun x => ?_, rfl, rfl, rfl⟩
  cases x with
  | strBad => exact ⟨by norm_num [calculate_sector_risk], by norm_num [calculate_sector_risk]⟩
  | nonDict => exact ⟨by norm_num [calculate_sector_risk], by norm_num [calculate_sector_risk]⟩
  | dict d =>
      show 0 ≤ (evalSectorDict d).getD (1/2) ∧ (evalSectorDict d).getD (1/2) ≤ 1
      cases hv : evalSectorDict d with
      | none => exact ⟨by norm_num, by norm_num⟩
      | some r => exact (evalSectorDict_some_mem_unit hv)
  | strOfDict d =>
      show 0 ≤ (evalSectorDict d).getD (1/2) ∧ (evalSectorDict d).getD (1/2) ≤ 1
      cases hv : evalSectorDict d with
      | none => exact ⟨by norm_num, by norm_num⟩
      | some r => exact (evalSectorDict_some_mem_unit hv)

/-- **C8.** On `{"business": {"years": 6, "type": "retail"}}` the sector
risk is exactly `0.5`: base `0.5` for `business`, `-0.1` because
`years > 5`, `+0.1` for the type `retail`, clamped to `[0,1]`. -/
theorem calculate_sector_risk_business_example :
    calculate_sector_risk (SectorInput.dict
      [("business", [("years", AttrVal.num 6), ("type", AttrVal.str "retail")])]) = 1/2 := by
  simp [calculate_sector_risk, evalSectorDict, applyMods, sector_base_risk,
    applyModifier, pyStr, dictGet, clamp01]
  norm_num

/-- **C10.** `calculate_sector_risk` reads only the first key of the
`sector_data` dict (`next(iter(...))`): the attribute sets stored under
every other sector key have no effect on the result. -/
theorem calculate_sector_risk_first_key_only
    (tag : String) (attrs : AttrDict) (rest rest' : SectorDict) :
    calculate_sector_risk (SectorInput.dict ((tag, attrs) :: rest)) =
      calculate_sector_risk (SectorInput.dict ((tag, attrs) :: rest')) := by
  simp [calculate_sector_risk, evalSectorDict, dictGet]

/-- **C6.** Empty (or unparseable) history yields exactly the neutral
feature set; a single on-time payment yields `late_payments = 0` and
`avg_payment_delay = 0`; and the per-record delay `max(0, payment_date -
due_date)` is never negative. -/
theorem extract_payment_features_neutral_cases :
    extract_payment_features (HistoryInput.list []) = neutralPaymentFeatures ∧
    extract_payment_features (HistoryInput.strOfList []) = neutralPaymentFeatures ∧
    extract_payment_features HistoryInput.strBad = neutralPaymentFeatures ∧
    (∀ (d : ℤ) (amt : Option ℚ),
      (extract_payment_features
        (HistoryInput.list [HistEntry.pay ⟨d, d, amt⟩])).late_payments = 0 ∧
      (extract_payment_features
        (HistoryInput.list [HistEntry.pay ⟨d, d, amt⟩])).avg_payment_delay = 0) ∧
    (∀ p : Payment, 0 ≤ delay_days p) := by
  refine ⟨rfl, rfl, rfl, fun d amt => ?_, fun p => le_max_left 0 _⟩
  constructor <;>
    simp [extract_payment_features, analyze_payments, histDelays, delay_days]

/-- Membership is preserved by sorted insertion. -/
theorem mem_insertSorted {a x : String} {l : List String} :
    a ∈ insertSorted x l ↔ a = x ∨ a ∈ l := by
  induction l with
  | nil => simp [insertSorted]
  | cons y ys ih =>
      simp only [insertSorted]
      split_ifs
      · simp
      · simp only [List.mem_cons, ih]
        tauto

/-- Membership is preserved by insertion sort. -/
theorem mem_insertionSortStr {a : String} {xs : List String} :
    a ∈ insertionSortStr xs ↔ a ∈ xs := by
  induction xs with
  | nil => simp [insertionSortStr]
  | cons x xs ih =>
      simp only [insertionSortStr, List.foldr_cons] at *
      rw [mem_insertSorted, ih]
      simp

/-- The fitted class list contains exactly the observed values. -/
theorem mem_fitClasses {a : String} {xs : List String} :
    a ∈ fitClasses xs ↔ a ∈ xs := by
  rw [fitClasses, List.mem_dedup, mem_insertionSortStr]

/-- A value outside the class list has no code. -/
theorem classIndex_eq_none {v : String} {l : List String} (h : v ∉ l) :
    classIndex l v = none := by
  induction l with
  | nil => rfl
  | cons c cs ih =>
      simp only [List.mem_cons, not_or] at h
      simp [classIndex, h.1, ih h.2]

/-- Appending a fresh binding is found by lookup when the key was
previously absent. -/
theorem dictGet_append_singleton {α : Type} {l : List (String × α)}
    {k : String} {v : α} (h : dictGet k l = none) :
    dictGet k (l ++ [(k, v)]) = some v := by
  induction l with
  | nil => simp [dictGet]
  | cons p rest ih =>
      obtain ⟨k', v'⟩ := p
      by_cases hk : k = k'
      · simp [dictGet, hk] at h
      · simp only [dictGet, if_neg hk] at h ⊢
        exact ih h

/-- **C3.** After a first (fitting) call has stored a field's mapping,
encoding a value that was not part of the fitted series fails (the stored
`LabelEncoder.transform` returns no code — the `UnknownCategory` /
`ValueError` condition) rather than silently assigning a code. -/
theorem encode_categorical_unseen_fails
    (encoders : EncoderState) (xs : List String) (name v : String)
    (hfresh : dictGet name encoders = none) (hunseen : v ∉ xs) :
    (encode_categorical ((encode_categorical encoders xs name).2) [v] name).1 = none := by
  have h1 : (encode_categorical encoders xs name).2 =
      encoders ++ [(name, fitClasses xs)] := by
    simp [encode_categorical, hfresh]
  rw [h1]
  have h2 : dictGet name (encoders ++ [(name, fitClasses xs)]) =
      some (fitClasses xs) := dictGet_append_singleton hfresh
  have h3 : classIndex (fitClasses xs) v = none :=
    classIndex_eq_none (fun hmem => hunseen (mem_fitClasses.mp hmem))
  simp [encode_categorical, h2, labelTransform, List.mapM.loop, h3]

/-- **C3 (witness).** Concrete instance: the field `f` is fitted on
`["a", "b"]`; encoding the unseen `"c"` afterwards fails. -/
theorem encode_categorical_unseen_fails_witness :
    (encode_categorical ((encode_categorical [] ["a", "b"] "f").2) ["c"] "f").1 = none :=
  encode_categorical_unseen_fails [] ["a", "b"] "f" "c" rfl (by decide)

/-- Python `round` is the identity on integers. -/
theorem bankersRound_intCast (m : ℤ) : bankersRound (m : ℚ) = m := by
  simp only [bankersRound, Int.floor_intCast, sub_self]
  rw [if_pos (by norm_num)]

/-- Rounding an integer to two decimal places returns it unchanged. -/
theorem pyRound_intCast (m : ℤ) (nd : ℕ) : pyRound (m : ℚ) nd = m := by
  have h : ((m : ℚ)) * (10 : ℚ) ^ nd = ((m * 10 ^ nd : ℤ) : ℚ) := by push_cast; ring
  rw [pyRound, h, bankersRound_intCast]
  push_cast
  rw [mul_div_assoc, div_self (by positivity), mul_one]

set_option maxHeartbeats 2000000 in
/-- **C9.** For `loan_amount = 1200`, `interest_rate = 0`, `term = 12`,
`monthly_payment = 100`, the schedule is exactly the 12 rows with zero
interest, principal `100`, balances descending `1100, 1000, …, 0`. -/
theorem create_detailed_schedule_zero_rate_example :
    create_detailed_schedule 1200 0 12 100 =
      [⟨1, 100, 100, 0, 1100⟩, ⟨2, 100, 100, 0, 1000⟩, ⟨3, 100, 100, 0, 900⟩,
       ⟨4, 100, 100, 0, 800⟩, ⟨5, 100, 100, 0, 700⟩, ⟨6, 100, 100, 0, 600⟩,
       ⟨7, 100, 100, 0, 500⟩, ⟨8, 100, 100, 0, 400⟩, ⟨9, 100, 100, 0, 300⟩,
       ⟨10, 100, 100, 0, 200⟩, ⟨11, 100, 100, 0, 100⟩, ⟨12, 100, 100, 0, 0⟩] := by
  have r0 : pyRound 0 2 = 0 := by simpa using pyRound_intCast 0 2
  have r100 : pyRound 100 2 = 100 := by simpa using pyRound_intCast 100 2
  have r200 : pyRound 200 2 = 200 := by simpa using pyRound_intCast 200 2
  have r300 : pyRound 300 2 = 300 := by simpa using pyRound_intCast 300 2
  have r400 : pyRound 400 2 = 400 := by simpa using pyRound_intCast 400 2
  have r500 : pyRound 500 2 = 500 := by simpa using pyRound_intCast 500 2
  have r600 : pyRound 600 2 = 600 := by simpa using pyRound_intCast 600 2
  have r700 : pyRound 700 2 = 700 := by simpa using pyRound_intCast 700 2
  have r800 : pyRound 800 2 = 800 := by simpa using pyRound_intCast 800 2
  have r900 : pyRound 900 2 = 900 := by simpa using pyRound_intCast 900 2
  have r1000 : pyRound 1000 2 = 1000 := by simpa using pyRound_intCast 1000 2
  have r1100 : pyRound 1100 2 = 1100 := by simpa using pyRound_intCast 1100 2
  norm_num [create_detailed_schedule, scheduleAux, ScheduleEntry.mk.injEq,
    r0, r100, r200, r300, r400, r500, r600, r700, r800, r900, r1000, r1100]


/-- `encode_categorical` with an already-stored field name only reads the
stored mapping (source line 39). -/
theorem encode_categorical_stored {st : EncoderState} {series : List String}
    {name : String} {cls : List String} (h : dictGet name st = some cls) :
    encode_categorical st series name = (labelTransform cls series, st) := by
  simp [encode_categorical, h]

/-- A preprocessing call whose two categorical fields were fitted before
either fails or returns the encoder state unchanged. -/
theorem preprocess_preserves_encoders {encoders : EncoderState} {u : UserData}
    {r : RandStream} {cls1 cls2 : List String}
    (h1 : dictGet "borrower_type" encoders = some cls1)
    (h2 : dictGet "loan_status" encoders = some cls2) :
    (preprocess_data_single encoders u r).map (fun t => t.2.1) = some encoders ∨
      preprocess_data_single encoders u r = none := by
  simp only [preprocess_data_single, encode_categorical_stored h1]
  cases hbt : labelTransform cls1 [u.borrower_type] with
  | none => right; rfl
  | some btCodes =>
      simp only [encode_categorical_stored h2]
      cases hls : labelTransform cls2 [u.loan_status] with
      | none => right; rfl
      | some lsCodes => left; rfl

/-- NaN absorbs addition on the right. -/
theorem pyAdd_nan_right (v : PyNum) : pyAdd v PyNum.nan = PyNum.nan := by
  cases v <;> rfl

/-- The NaN-scaled per-column noise pass turns every entry NaN. -/
theorem addNanScaledNoise_fst (xs : List PyNum) (r : RandStream) :
    (addNanScaledNoise xs r).1 = List.replicate xs.length PyNum.nan := by
  induction xs generalizing r with
  | nil => rfl
  | cons v vs ih => simp [addNanScaledNoise, pyAdd_nan_right, ih, List.replicate]

/-- Finite final noise leaves an all-NaN row all-NaN. -/
theorem addDrawnNoise_replicate_nan (k : ℕ) (r : RandStream) :
    (addDrawnNoise (List.replicate k PyNum.nan) r).1 = List.replicate k PyNum.nan := by
  induction k generalizing r with
  | zero => rfl
  | succ n ih => simp [List.replicate, addDrawnNoise, pyAdd, ih]

/-- Whatever the preprocessed row and the draws, the model input built by
`prepare_features` is an all-NaN row: the per-column NaN-scaled noise
poisons every selected feature before scaling. -/
theorem prepare_features_input_nan (scaler : ScalerState) (row : List (String × PyNum))
    (r : RandStream) :
    ∃ k, (prepare_features_single scaler row r).2.1 = List.replicate k PyNum.nan := by
  refine ⟨((dropFeatures featureNames r).1.filter
    (fun f => (dictGet f row).isSome)).length, ?_⟩
  simp only [prepare_features_single, fit_transform_single]
  rw [addNanScaledNoise_fst]
  simp only [List.map_replicate]
  rw [addDrawnNoise_replicate_nan]
  simp

/-- A successful booster prediction pins the feature count and the
returned value. -/
theorem predictModel_some {m : TrainedModel} {x : List PyNum} {v : ℚ}
    (h : predictModel m x = some v) : x.length = m.n_features ∧ v = m.score x := by
  unfold predictModel at h
  split at h
  · exact ⟨by assumption, (Option.some.injEq _ _ ▸ h).symm⟩
  · exact absurd h (by simp)

/-- Every successful guidance call returns the same guidance core: the
models scored on the all-NaN row of the risk model's feature count.
The random draws decide only whether the call fails (dropout can change
the feature count, which the boosters reject), never the returned
values. -/
theorem generate_success_shape
    {rm pm : TrainedModel} {enc : EncoderState} {sc : ScalerState} {u : UserData}
    {r : RandStream} {o : GuidanceResult × EncoderState × ScalerState}
    (h : generate_comprehensive_guidance rm pm enc sc u r = some o) :
    o.1 = { risk_score := rm.score (List.replicate rm.n_features PyNum.nan),
            predicted_payment := pm.score (List.replicate rm.n_features PyNum.nan),
            risk_level := categorize_risk (rm.score (List.replicate rm.n_features PyNum.nan)),
            risk_score_displayed :=
              pyRound (rm.score (List.replicate rm.n_features PyNum.nan)) 4,
            monthly_payment :=
              pyRound (pm.score (List.replicate rm.n_features PyNum.nan)) 2 } := by
  simp only [generate_comprehensive_guidance] at h
  cases hpre : preprocess_data_single enc u r with
  | none => rw [hpre] at h; exact absurd h (by simp)
  | some t =>
      rw [hpre] at h
      obtain ⟨row, enc', rest⟩ := t
      dsimp only at h
      obtain ⟨k, hk⟩ := prepare_features_input_nan sc row rest
      cases hrm : predictModel rm (prepare_features_single sc row rest).2.1 with
      | none => rw [hrm] at h; exact absurd h (by simp)
      | some rs =>
          rw [hrm] at h
          cases hpm : predictModel pm (prepare_features_single sc row rest).2.1 with
          | none => rw [hpm] at h; exact absurd h (by simp)
          | some ps =>
              rw [hpm] at h
              obtain ⟨hlen, hrs⟩ := predictModel_some hrm
              obtain ⟨hlen2, hps⟩ := predictModel_some hpm
              have hx : (prepare_features_single sc row rest).2.1 =
                  List.replicate rm.n_features PyNum.nan := by
                rw [hk] at hlen ⊢
                rw [List.length_replicate] at hlen
                rw [hlen]
              simp only [Option.some.injEq] at h
              rw [← h]
              simp [hrs, hps, hx]

/-- A guidance call whose two categorical fields were fitted before
either fails or returns the encoder state unchanged. -/
theorem generate_preserves_encoders
    (risk_model payment_predictor : TrainedModel) (encoders : EncoderState)
    (scaler : ScalerState) (u : UserData) (r : RandStream) (cls1 cls2 : List String)
    (h1 : dictGet "borrower_type" encoders = some cls1)
    (h2 : dictGet "loan_status" encoders = some cls2) :
    (generate_comprehensive_guidance risk_model payment_predictor encoders scaler u r).map
        (fun p => p.2.1) = some encoders ∨
      generate_comprehensive_guidance risk_model payment_predictor encoders scaler u r =
        none := by
  simp only [generate_comprehensive_guidance]
  cases hpre : preprocess_data_single encoders u r with
  | none => right; rfl
  | some t =>
      obtain ⟨row, enc', rest⟩ := t
      have henc : enc' = encoders := by
        rcases preprocess_preserves_encoders h1 h2 (u := u) (r := r) with hok | hnone
        · rw [hpre] at hok
          simpa using hok
        · rw [hpre] at hnone
          exact absurd hnone (by simp)
      subst henc
      dsimp only
      cases hrm : predictModel risk_model (prepare_features_single scaler row rest).2.1 with
      | none => right; rfl
      | some rs =>
          cases hpm : predictModel payment_predictor
              (prepare_features_single scaler row rest).2.1 with
          | none => right; rfl
          | some ps => left; rfl

set_option maxHeartbeats 4000000 in
set_option maxRecDepth 8000 in
/-- Evaluation of the preprocessing stage on `userC` under `streamOnes`. -/
theorem preprocess_ones :
    preprocess_data_single encodersC userC streamOnes =
      some (rowNanOnesC, encodersC, tail54Ones) := by
  simp only [preprocess_data_single, noiseFill, draw, safeDivSS, safeDivSc, safe_divide,
    pdDiv, sdClean, fdiv, pyAdd, pyMul, encode_categorical, encodersC, userC,
    streamOnes, dictGet, labelTransform, classIndex, List.mapM.loop,
    calculate_sector_risk, evalSectorDict, applyMods, applyModifier, sector_base_risk,
    pyStr, clamp01,
    extract_payment_features, analyze_payments, histDelays, histAmounts, delay_days,
    npMean, npDiff, npStd, ratSqrt, neutralPaymentFeatures,
    randomModify, rowNanOnesC, tail54Ones, List.headD_cons, List.tail_cons]
  simp [fitClasses, insertionSortStr, insertSorted, classIndex, List.mapM.loop,
    applyMods, applyModifier, sector_base_risk, pyStr, clamp01, dictGet,
    pyAdd, pyMul, fdiv, safe_divide, pdDiv, sdClean, safeDivSS, safeDivSc]
  norm_num [pyAdd, pyMul, fdiv]

set_option maxHeartbeats 4000000 in
set_option maxRecDepth 8000 in
/-- Evaluation of the preprocessing stage on `userC` under
`streamLastHalf` (identical row: the changed draw comes later). -/
theorem preprocess_lasthalf :
    preprocess_data_single encodersC userC streamLastHalf =
      some (rowNanOnesC, encodersC, tail54LastHalf) := by
  simp only [preprocess_data_single, noiseFill, draw, safeDivSS, safeDivSc, safe_divide,
    pdDiv, sdClean, fdiv, pyAdd, pyMul, encode_categorical, encodersC, userC,
    streamLastHalf, dictGet, labelTransform, classIndex, List.mapM.loop,
    calculate_sector_risk, evalSectorDict, applyMods, applyModifier, sector_base_risk,
    pyStr, clamp01,
    extract_payment_features, analyze_payments, histDelays, histAmounts, delay_days,
    npMean, npDiff, npStd, ratSqrt, neutralPaymentFeatures,
    randomModify, rowNanOnesC, tail54LastHalf, List.headD_cons, List.tail_cons]
  simp [fitClasses, insertionSortStr, insertSorted, classIndex, List.mapM.loop,
    applyMods, applyModifier, sector_base_risk, pyStr, clamp01, dictGet,
    pyAdd, pyMul, fdiv, safe_divide, pdDiv, sdClean, safeDivSS, safeDivSc]
  norm_num [pyAdd, pyMul, fdiv]

set_option maxHeartbeats 4000000 in
set_option maxRecDepth 8000 in
/-- Evaluation of `prepare_features` on the preprocessed row under the
remaining `streamOnes` draws: all 18 features kept, the scaler re-fitted
to the NaN singleton statistics, the model input all NaN. -/
theorem prepare_ones :
    prepare_features_single scalerC rowNanOnesC tail54Ones =
      (scalerNanC, List.replicate 18 PyNum.nan, ([] : RandStream)) := by
  simp only [prepare_features_single, dropFeatures, addNanScaledNoise, addDrawnNoise,
    fit_transform_single, featureNames, dictGet, draw, scalerC, rowNanOnesC, scalerNanC,
    tail54Ones, pyAdd, List.headD_cons, List.tail_cons]
  norm_num
  simp [dictGet, pyAdd]
  norm_num [addNanScaledNoise, addDrawnNoise, draw, fit_transform_single, pyAdd,
    List.replicate, List.headD_cons, List.tail_cons]

set_option maxHeartbeats 4000000 in
set_option maxRecDepth 8000 in
/-- Evaluation of `prepare_features` under the remaining `streamLastHalf`
draws: the changed final-noise draw is absorbed by NaN, so the result is
identical. -/
theorem prepare_lasthalf :
    prepare_features_single scalerC rowNanOnesC tail54LastHalf =
      (scalerNanC, List.replicate 18 PyNum.nan, ([] : RandStream)) := by
  simp only [prepare_features_single, dropFeatures, addNanScaledNoise, addDrawnNoise,
    fit_transform_single, featureNames, dictGet, draw, scalerC, rowNanOnesC, scalerNanC,
    tail54LastHalf, pyAdd, List.headD_cons, List.tail_cons]
  norm_num
  simp [dictGet, pyAdd]
  norm_num [addNanScaledNoise, addDrawnNoise, draw, fit_transform_single, pyAdd,
    List.replicate, List.headD_cons, List.tail_cons]

set_option maxHeartbeats 1000000 in
/-- End-to-end evaluation of the guidance call under `streamOnes`. -/
theorem generate_ones :
    generate_comprehensive_guidance riskModelC paymentPredictorC encodersC scalerC userC
      streamOnes = some resC := by
  have r4 : pyRound (1/2 : ℚ) 4 = 1/2 := by norm_num [pyRound, bankersRound]
  have r2 : pyRound (1389 : ℚ) 2 = 1389 := by simpa using pyRound_intCast 1389 2
  simp only [generate_comprehensive_guidance, preprocess_ones, prepare_ones]
  norm_num [predictModel, riskModelC, paymentPredictorC, resC, categorize_risk, r4, r2]

set_option maxHeartbeats 1000000 in
/-- End-to-end evaluation of the guidance call under `streamLastHalf`:
despite the changed noise draw, exactly the same result. -/
theorem generate_lasthalf :
    generate_comprehensive_guidance riskModelC paymentPredictorC encodersC scalerC userC
      streamLastHalf = some resC := by
  have r4 : pyRound (1/2 : ℚ) 4 = 1/2 := by norm_num [pyRound, bankersRound]
  have r2 : pyRound (1389 : ℚ) 2 = 1389 := by simpa using pyRound_intCast 1389 2
  simp only [generate_comprehensive_guidance, preprocess_lasthalf, prepare_lasthalf]
  norm_num [predictModel, riskModelC, paymentPredictorC, resC, categorize_risk, r4, r2]

/-- **C1.** For a fixed trained model, inference is deterministic: any
two successful runs of `generate_comprehensive_guidance` on the same
borrower record return the same risk score and the same predicted
monthly payment (indeed the same entire guidance core).  The randomized
perturbations drawn on the inference path never reach the models as
varying values: every std-scaled noise draw on the one-row frame is NaN,
so the prepared feature row is the constant all-NaN row of the risk
model's feature count, and the draws can only make a call fail (the
random feature dropout can change the feature count, which the boosters
reject), never change what a successful call returns. -/
theorem generate_guidance_deterministic
    (risk_model payment_predictor : TrainedModel) (encoders : EncoderState)
    (scaler : ScalerState) (u : UserData) (r1 r2 : RandStream)
    (o1 o2 : GuidanceResult × EncoderState × ScalerState)
    (h1 : generate_comprehensive_guidance risk_model payment_predictor encoders scaler
      u r1 = some o1)
    (h2 : generate_comprehensive_guidance risk_model payment_predictor encoders scaler
      u r2 = some o2) :
    o1.1.risk_score = o2.1.risk_score ∧
    o1.1.predicted_payment = o2.1.predicted_payment ∧
    o1.1 = o2.1 := by
  have e1 := generate_success_shape h1
  have e2 := generate_success_shape h2
  rw [e1, e2]
  exact ⟨rfl, rfl, rfl⟩

/-- **C1 (witness).** The determinism theorem applied to two concrete
successful runs on the smoke-test record whose draw streams differ in a
final-noise value. -/
theorem generate_guidance_deterministic_witness :
    resC.1.risk_score = resC.1.risk_score ∧
    resC.1.predicted_payment = resC.1.predicted_payment ∧
    resC.1 = resC.1 :=
  generate_guidance_deterministic riskModelC paymentPredictorC encodersC scalerC userC
    streamOnes streamLastHalf resC resC generate_ones generate_lasthalf

/-- **C2 (counterexample).** A successful single-record guidance call on
a previously-fitted system returns with the feature scaler re-fitted to
the one-row request batch, whose singleton statistics are NaN: the
post-call scaler (`scalerNanC`) differs from the pre-call trained scaler
(`scalerC`). -/
theorem generate_guidance_scaler_refit_counterexample :
    (generate_comprehensive_guidance riskModelC paymentPredictorC encodersC scalerC userC
        streamOnes).map (fun p => p.2.2) = some scalerNanC ∧
    scalerNanC ≠ scalerC :=
  ⟨by simp [generate_ones, resC], by decide⟩

/-- **C2 (amended).** A per-request inference call leaves the per-field
category mappings exactly as they were (for fields fitted before the
call, `encode_categorical` only reads the stored mapping, and any
successful call returns the encoder state unchanged), but it does NOT
leave the fitted feature scaler unchanged: `prepare_features` calls
`fit_transform`, re-fitting the scaler on the one-row request batch (NaN
singleton statistics), as the concrete call witnesses. -/
theorem generate_guidance_encoders_preserved_scaler_refit :
    (∀ (st : EncoderState) (series : List String) (name : String) (cls : List String),
       dictGet name st = some cls → (encode_categorical st series name).2 = st) ∧
    (∀ (risk_model payment_predictor : TrainedModel) (encoders : EncoderState)
       (scaler : ScalerState) (u : UserData) (r : RandStream) (cls1 cls2 : List String),
       dictGet "borrower_type" encoders = some cls1 →
       dictGet "loan_status" encoders = some cls2 →
       ((generate_comprehensive_guidance risk_model payment_predictor encoders scaler u r).map
           (fun p => p.2.1) = some encoders ∨
         generate_comprehensive_guidance risk_model payment_predictor encoders scaler u r =
           none)) ∧
    ((generate_comprehensive_guidance riskModelC paymentPredictorC encodersC scalerC userC
        streamOnes).map (fun p => p.2.2) ≠ some scalerC) := by
  refine ⟨?_, ?_, ?_⟩
  · intro st series name cls h
    rw [encode_categorical_stored h]
  · intro rm pm enc sc u r cls1 cls2 h1 h2
    exact generate_preserves_encoders rm pm enc sc u r cls1 cls2 h1 h2
  · rw [generate_ones]
    intro h
    simp only [Option.map_some', Option.some.injEq] at h
    exact absurd h (by decide)

/-- **C2 (witness).** The amended theorem applied at concrete inputs:
a stored field mapping is only read, and the concrete guidance call
returns its encoder state unchanged. -/
theorem generate_guidance_encoders_preserved_scaler_refit_witness :
    (encode_categorical [("f", ["a"])] ["a"] "f").2 = [("f", ["a"])] ∧
    ((generate_comprehensive_guidance riskModelC paymentPredictorC encodersC scalerC userC
        streamOnes).map (fun p => p.2.1) = some encodersC ∨
      generate_comprehensive_guidance riskModelC paymentPredictorC encodersC scalerC userC
        streamOnes = none) :=
  ⟨generate_guidance_encoders_preserved_scaler_refit.1 [("f", ["a"])] ["a"] "f" ["a"]
     (by simp [dictGet]),
   generate_guidance_encoders_preserved_scaler_refit.2.1 riskModelC paymentPredictorC
     encodersC scalerC userC streamOnes ["business"] ["Charged Off"]
     (by simp [dictGet, encodersC]) (by simp [dictGet, encodersC])⟩
